import Mathlib

/-!
Verification of the LIA compiler front end (`src/lia_compiler.js`): a shallow
embedding of the lexer (`tokenize`), the recursive-descent parser
(`Parser.prototype.*`) and the AST-to-block-graph generator
(`generateProject` / `compileStatement` / `compileStatements`), together with
theorems checking the specification's claims about them.

Embedding conventions:
* JS numbers are modelled as rationals (the numeric literals the grammar
  admits are decimal, and no claim depends on binary floating point).
* JS exceptions are modelled with `Except`; a JS `TypeError` caused by
  reading a property of `undefined` (out-of-range token access) is a
  distinct error constructor from `throw new Error(message)`.
* The id generator (a uuidv4 with dashes removed, truncated to 20
  characters) is modelled as an
  ambient stream `σ : Nat → String` of draws, consumed left to right; the
  code does nothing to prevent two draws being equal.
* Recursive functions take a fuel argument (structural recursion on `Nat`)
  so that every definition is executable and reduces inside the kernel; the
  fuel-exhaustion error constructor is distinct from every error the JS code
  can raise, and concrete runs are always given ample fuel.
-/

/-- Decidable equality for `Except`, used to evaluate concrete runs. -/
instance {ε α : Type} [DecidableEq ε] [DecidableEq α] : DecidableEq (Except ε α) := fun a b =>
  match a, b with
  | .ok x, .ok y => if h : x = y then .isTrue (by simp [h]) else .isFalse (by simp [h])
  | .error x, .error y => if h : x = y then .isTrue (by simp [h]) else .isFalse (by simp [h])
  | .ok _, .error _ => .isFalse (by simp)
  | .error _, .ok _ => .isFalse (by simp)

/-- Tokens, as produced by `tokenize` (src/lia_compiler.js lines 42-65):
`{type:'punct'|'ident'|'string'|'number'|'eof', value}`.  String tokens hold
the value with the surrounding quotes stripped (line 60). -/
inductive Token where
  | punct (v : String)
  | ident (v : String)
  | str (v : String)
  | num (v : ℚ)
  | eof
deriving DecidableEq, Repr

/-- Lexer failure: `throw new Error('Unexpected token at ' + pos + ': ' +
input.slice(pos, pos + 20))` (line 55) carries the offset and a 20-character
snippet.  `fuelOut` is an artifact of the fuel-based embedding and
corresponds to no behaviour of the JS code. -/
inductive LexErr where
  | unexpected (pos : Nat) (snippet : String)
  | fuelOut
deriving DecidableEq, Repr

/-- Whitespace for the regex's `\s*` groups (ASCII part of JS `\s`). -/
def isJsWs (c : Char) : Bool :=
  c = ' ' || c = '\t' || c = '\n' || c = '\r' || c = '\x0b' || c = '\x0c'

/-- Whitespace characters the manual skip on line 52 recognizes:
`'\n' '\r' '\t' ' '`. -/
def isSkipWs (c : Char) : Bool :=
  c = '\n' || c = '\r' || c = '\t' || c = ' '

/-- Drop leading JS whitespace (the `\s*` at the start of each regex
alternative). -/
def skipWs : List Char → List Char
  | [] => []
  | c :: rest => if isJsWs c then skipWs rest else c :: rest

/-- If `p` is a prefix of `l`, return the remainder. -/
def stripLead : List Char → List Char → Option (List Char)
  | [], l => some l
  | _ :: _, [] => none
  | p :: ps, c :: cs => if c = p then stripLead ps cs else none

/-- The punctuation alternatives of the token regex (line 44), in the order
the regex alternation tries them:
`=>|>=|<=|==|!=|{|}|(|)|;|,|.|+|-|*|/|>=|<=|>|<|=`. -/
def punctList : List (List Char) :=
  [['=', '>'], ['>', '='], ['<', '='], ['=', '='], ['!', '='],
   ['\x7b'], ['\x7d'], ['('], [')'], [';'], [','], ['.'],
   ['+'], ['-'], ['*'], ['/'], ['>', '='], ['<', '='], ['>'], ['<'], ['=']]

/-- First punctuation alternative that is a prefix of the input. -/
def matchPunctAux : List (List Char) → List Char → Option (String × List Char)
  | [], _ => none
  | p :: ps, l =>
    match stripLead p l with
    | some r => some (String.mk p, r)
    | none => matchPunctAux ps l

def matchPunct (l : List Char) : Option (String × List Char) :=
  matchPunctAux punctList l

/-- Identifier start: `[A-Za-z_]`. -/
def isIdentStart (c : Char) : Bool := c.isAlpha || c = '_'

/-- Identifier continuation: `[A-Za-z0-9_\.\"]` (the class deliberately
includes dot and double quote, line 44). -/
def isIdentCont (c : Char) : Bool := c.isAlphanum || c = '_' || c = '.' || c = '"'

def matchIdent : List Char → Option (String × List Char)
  | [] => none
  | c :: rest =>
    if isIdentStart c then
      some (String.mk (c :: rest.takeWhile isIdentCont), rest.dropWhile isIdentCont)
    else none

/-- String-literal alternative `\"[^\"]*\"`: succeeds only when a closing
quote exists; the token value is the text between the quotes. -/
def matchStr : List Char → Option (String × List Char)
  | [] => none
  | c :: rest =>
    if c = '"' then
      if '"' ∈ rest then
        some (String.mk (rest.takeWhile (· ≠ '"')), (rest.dropWhile (· ≠ '"')).drop 1)
      else none
    else none

/-- Digits to a natural number. -/
def digitsVal (l : List Char) : Nat :=
  l.foldl (fun a c => 10 * a + (c.toNat - '0'.toNat)) 0

/-- Numeric alternative `[0-9]+(?:\.[0-9]+)?`, read as an exact decimal. -/
def matchNum (l : List Char) : Option (ℚ × List Char) :=
  let ds := l.takeWhile Char.isDigit
  if ds.isEmpty then none
  else
    let rest := l.dropWhile Char.isDigit
    match rest with
    | '.' :: d :: r =>
      if d.isDigit then
        let fs := (d :: r).takeWhile Char.isDigit
        some ((digitsVal ds : ℚ) + (digitsVal fs : ℚ) / ((10 : ℚ) ^ fs.length),
              (d :: r).dropWhile Char.isDigit)
      else some ((digitsVal ds : ℚ), rest)
    | _ => some ((digitsVal ds : ℚ), rest)

/-- One attempt of the sticky regex at the current position: leading `\s*`,
then the four alternatives in order (punct, ident, string, number).  The
trailing `\s*` of a successful alternative is equivalent to the leading skip
of the next attempt, so it is folded into the next attempt. -/
def matchToken (l : List Char) : Option (Token × List Char) :=
  let l1 := skipWs l
  match matchPunct l1 with
  | some (s, r) => some (.punct s, r)
  | none =>
    match matchIdent l1 with
    | some (s, r) => some (.ident s, r)
    | none =>
      match matchStr l1 with
      | some (s, r) => some (.str s, r)
      | none =>
        match matchNum l1 with
        | some (q, r) => some (.num q, r)
        | none => none

/-- The `tokenize` main loop (lines 46-62): at each position try the regex;
on failure skip a single recognized whitespace character or fail with the
offset and a 20-character snippet.  `pos` tracks the source offset for error
reporting; `acc` accumulates tokens. -/
def tokenizeAux (fuel : Nat) : List Char → Nat → List Token → Except LexErr (List Token)
  | l, pos, acc =>
    match fuel with
    | 0 => .error .fuelOut
    | fuel + 1 =>
      match l with
      | [] => .ok (acc ++ [.eof])
      | c :: rest =>
        match matchToken (c :: rest) with
        | some (t, r) =>
          tokenizeAux fuel r (pos + ((c :: rest).length - r.length)) (acc ++ [t])
        | none =>
          if isSkipWs c then tokenizeAux fuel rest (pos + 1) acc
          else .error (.unexpected pos (String.mk ((c :: rest).take 20)))

/-- `tokenize` (line 42): scan the whole input, appending the `eof`
sentinel.  One fuel unit per character suffices since every step consumes at
least one character. -/
def tokenize (s : String) : Except LexErr (List Token) :=
  tokenizeAux (s.length + 1) s.data 0 []

/-- Event kinds (`parseEvent`, lines 120-141): `start`, `key(k)`, `click`,
`backdrop(name)`. -/
inductive EvKind where
  | start
  | key (k : String)
  | click
  | backdrop (name : String)
deriving DecidableEq, Repr

/-- Call-argument values: the parser pushes `t.value` for number, string and
identifier tokens (line 195); string-literal and identifier values are both
plain JS strings downstream. -/
inductive Value where
  | num (q : ℚ)
  | str (s : String)
deriving DecidableEq, Repr

/-- AST statements, mirroring the node shapes the parser constructs
(`Program` bodies are `List Stmt`):
`Event`, `Repeat`, `LoopStatement`, `If`, `AwaitUntil`, `Call`, `Empty`. -/
inductive Stmt where
  | Event (kind : EvKind)
  | Repeat (count : ℚ) (body : List Stmt)
  | LoopStatement (body : List Stmt)
  | If (condition : String) (consequent : List Stmt) (alternate : Option (List Stmt))
  | AwaitUntil (condition : String)
  | Call (name : String) (args : List Value) (forN : Option ℚ)
  | Empty
deriving Repr

/-- Parser failure modes.  `err` is `throw new Error(message)`; `typeError`
is the JS `TypeError` raised when the parser reads `.type`/`.value` of
`undefined` after running past the end of the token array; `fuelOut` is the
embedding's fuel artifact (never raised on the runs the theorems below
consider). -/
inductive PErr where
  | err (msg : String)
  | typeError
  | fuelOut
deriving DecidableEq, Repr

/-- Rendering of a token for error messages (the JS code uses
`JSON.stringify`; only the presence of kind and value matters here). -/
def tokStr : Token → String
  | .punct v => "(type punct, value " ++ v ++ ")"
  | .ident v => "(type ident, value " ++ v ++ ")"
  | .str v => "(type string, value " ++ v ++ ")"
  | .num q => "(type number, value " ++ toString q.num ++ ")"
  | .eof => "(type eof)"

/-- `t.value` coerced to a string, as used for condition strings and
`parseSimple`'s name; `eof` has no value field (JS `undefined`). -/
def Token.valueStr : Token → String
  | .punct v => v
  | .ident v => v
  | .str v => v
  | .num q => toString q.num
  | .eof => "undefined"

/-- `Parser.prototype.expect` for `expect('punct', v)` (lines 78-82): wrong
token kind or value raises `Expected ... got ...`; an out-of-range read is a
`TypeError`. -/
def expectP (v : String) : List Token → Except PErr (List Token)
  | [] => .error .typeError
  | t :: rest =>
    if t = .punct v then .ok rest
    else .error (.err ("Expected punct:" ++ v ++ " got " ++ tokStr t))

/-- `expect('ident', v)`. -/
def expectI (v : String) : List Token → Except PErr (List Token)
  | [] => .error .typeError
  | t :: rest =>
    if t = .ident v then .ok rest
    else .error (.err ("Expected ident:" ++ v ++ " got " ++ tokStr t))

/-- The crude condition scan of `parseIf`/`parseAwait` (lines 157-158,
176-177): `while (!(peek is ')')) condTokens.push(next())`.  The loop checks
`this.peek().type` first, so running past the end of the token array (after
consuming the `eof` sentinel) raises a `TypeError`. -/
def collectCond : List Token → Except PErr (List Token × List Token)
  | [] => .error .typeError
  | t :: rest =>
    if t = .punct ")" then .ok ([], t :: rest)
    else
      match collectCond rest with
      | .ok (c, r) => .ok (t :: c, r)
      | .error e => .error e

/-- `condTokens.map(t => t.value).join(' ')` (line 168). -/
def condString (ts : List Token) : String :=
  String.intercalate " " (ts.map Token.valueStr)

/-- The argument loop of `parseSimple` (lines 193-198): literal arguments
until `)`, with an optional comma consumed after each argument. -/
def collectArgs : List Token → Except PErr (List Value × List Token)
  | [] => .error .typeError
  | t :: rest =>
    if t = .punct ")" then .ok ([], t :: rest)
    else
      match t with
      | .num q =>
        match rest with
        | [] => .error .typeError
        | .punct "," :: r2 =>
          match collectArgs r2 with
          | .ok (vs, r) => .ok (.num q :: vs, r)
          | .error e => .error e
        | r2 =>
          match collectArgs r2 with
          | .ok (vs, r) => .ok (.num q :: vs, r)
          | .error e => .error e
      | .str s =>
        match rest with
        | [] => .error .typeError
        | .punct "," :: r2 =>
          match collectArgs r2 with
          | .ok (vs, r) => .ok (.str s :: vs, r)
          | .error e => .error e
        | r2 =>
          match collectArgs r2 with
          | .ok (vs, r) => .ok (.str s :: vs, r)
          | .error e => .error e
      | .ident s =>
        match rest with
        | [] => .error .typeError
        | .punct "," :: r2 =>
          match collectArgs r2 with
          | .ok (vs, r) => .ok (.str s :: vs, r)
          | .error e => .error e
        | r2 =>
          match collectArgs r2 with
          | .ok (vs, r) => .ok (.str s :: vs, r)
          | .error e => .error e
      | _ => .error (.err ("Unexpected arg token " ++ tokStr t))

/-- `parseEvent` (lines 120-141). -/
def parseEvent (l : List Token) : Except PErr (Stmt × List Token) := do
  let r ← expectI "on" l
  match r with
  | [] => .error .typeError
  | t :: r1 =>
    if t = .ident "start" then do
      let r2 ← expectP ";" r1
      .ok (.Event .start, r2)
    else if t = .ident "key" then do
      let r2 ← expectP "(" r1
      match r2 with
      | [] => .error .typeError
      | k :: r3 =>
        match k with
        | .ident s => do
          let r4 ← expectP ")" r3
          let r5 ← expectP ";" r4
          .ok (.Event (.key s), r5)
        | .str s => do
          let r4 ← expectP ")" r3
          let r5 ← expectP ";" r4
          .ok (.Event (.key s), r5)
        | _ => .error (.err "Expected key")
    else if t = .ident "click" then do
      let r2 ← expectP ";" r1
      .ok (.Event .click, r2)
    else if t = .ident "backdrop" then do
      let r2 ← expectP "(" r1
      match r2 with
      | [] => .error .typeError
      | k :: r3 =>
        match k with
        | .str s => do
          let r4 ← expectP ")" r3
          let r5 ← expectP ";" r4
          .ok (.Event (.backdrop s), r5)
        | .ident s => do
          let r4 ← expectP ")" r3
          let r5 ← expectP ";" r4
          .ok (.Event (.backdrop s), r5)
        | _ => .error (.err "Expected string")
    else .error (.err ("Unknown event " ++ tokStr t))

/-- `parseAwait` (lines 171-183). -/
def parseAwait (l : List Token) : Except PErr (Stmt × List Token) := do
  let r ← expectI "await" l
  match r with
  | [] => .error .typeError
  | t :: r1 =>
    if t = .ident "until" then do
      let r2 ← expectP "(" r1
      let (ct, r3) ← collectCond r2
      let r4 ← expectP ")" r3
      let r5 ← expectP ";" r4
      .ok (.AwaitUntil (condString ct), r5)
    else .error (.err "Unknown await form")

/-- `parseSimple` (lines 185-211): leading identifier as the call name,
optional parenthesized literal arguments, optional `for(n)` suffix, then a
mandatory `;` (its absence is the `Expected semicolon after statement`
error). -/
def parseSimple (l : List Token) : Except PErr (Stmt × List Token) := do
  match l with
  | [] => .error .typeError
  | nameToken :: rest =>
    let name := nameToken.valueStr
    let argsRes ←
      (match rest with
       | [] => (.error .typeError : Except PErr (List Value × List Token))
       | t :: r1 =>
         if t = .punct "(" then do
           let (args, r2) ← collectArgs r1
           let r3 ← expectP ")" r2
           .ok (args, r3)
         else .ok ([], t :: r1))
    let (args, r4) := argsRes
    let forRes ←
      (match r4 with
       | [] => (.error .typeError : Except PErr (Option ℚ × List Token))
       | t :: r5 =>
         if t = .ident "for" then do
           let r6 ← expectP "(" r5
           match r6 with
           | [] => .error .typeError
           | n :: r7 =>
             match n with
             | .num q => do
               let r8 ← expectP ")" r7
               .ok (some q, r8)
             | _ => .error (.err "Expected number in for")
         else .ok (none, t :: r5))
    let (forN, r9) := forRes
    match r9 with
    | [] => .error .typeError
    | t :: r10 =>
      if t = .punct ";" then .ok (.Call name args forN, r10)
      else .error (.err ("Expected semicolon after statement " ++ name))

mutual

/-- `parseStatement` (lines 92-108): dispatch on the lookahead token.  The
explicit verb list on line 102 and the fallback on line 104 both call
`parseSimple`, so any identifier other than the five structured keywords is
a generic call. -/
def parseStatement : Nat → List Token → Except PErr (Stmt × List Token)
  | 0, _ => .error .fuelOut
  | fuel + 1, l =>
    match l with
    | [] => .error .typeError
    | t :: rest =>
      match t with
      | .ident v =>
        if v = "on" then parseEvent (t :: rest)
        else if v = "repeat" then parseRepeat fuel (t :: rest)
        else if v = "loop" then do
          let r1 ← expectP "\x7b" rest
          let (body, r2) ← parseBlock fuel r1
          .ok (.LoopStatement body, r2)
        else if v = "if" then parseIf fuel (t :: rest)
        else if v = "await" then parseAwait (t :: rest)
        else parseSimple (t :: rest)
      | .punct v =>
        if v = ";" then .ok (.Empty, rest)
        else .error (.err ("Unexpected token in statement: " ++ tokStr t))
      | _ => .error (.err ("Unexpected token in statement: " ++ tokStr t))

/-- `parseBlock` (lines 110-118): statements until `}`; reaching `eof` first
is the `Unclosed block` error. -/
def parseBlock : Nat → List Token → Except PErr (List Stmt × List Token)
  | 0, _ => .error .fuelOut
  | fuel + 1, l =>
    match l with
    | [] => .error .typeError
    | t :: rest =>
      if t = .punct "\x7d" then .ok ([], rest)
      else if t = .eof then .error (.err "Unclosed block")
      else do
        let (s, r1) ← parseStatement fuel (t :: rest)
        let (ss, r2) ← parseBlock fuel r1
        .ok (s :: ss, r2)

/-- `parseRepeat` (lines 143-151). -/
def parseRepeat : Nat → List Token → Except PErr (Stmt × List Token)
  | 0, _ => .error .fuelOut
  | fuel + 1, l => do
    let r1 ← expectI "repeat" l
    let r2 ← expectP "(" r1
    match r2 with
    | [] => .error .typeError
    | n :: r3 =>
      match n with
      | .num q => do
        let r4 ← expectP ")" r3
        let r5 ← expectP "\x7b" r4
        let (body, r6) ← parseBlock fuel r5
        .ok (.Repeat q body, r6)
      | _ => .error (.err "Expected number in repeat")

/-- `parseIf` (lines 153-169): crude condition scan, consequent block,
optional `else` block. -/
def parseIf : Nat → List Token → Except PErr (Stmt × List Token)
  | 0, _ => .error .fuelOut
  | fuel + 1, l => do
    let r1 ← expectI "if" l
    let r2 ← expectP "(" r1
    let (ct, r3) ← collectCond r2
    let r4 ← expectP ")" r3
    let r5 ← expectP "\x7b" r4
    let (conseq, r6) ← parseBlock fuel r5
    match r6 with
    | [] => .error .typeError
    | t :: r7 =>
      if t = .ident "else" then do
        let r8 ← expectP "\x7b" r7
        let (alt, r9) ← parseBlock fuel r8
        .ok (.If (condString ct) conseq (some alt), r9)
      else .ok (.If (condString ct) conseq none, t :: r7)

/-- `parseProgram`'s loop (lines 84-90): statements until the `eof`
sentinel (which is left unconsumed). -/
def parseProgramAux : Nat → List Token → Except PErr (List Stmt × List Token)
  | 0, _ => .error .fuelOut
  | fuel + 1, l =>
    match l with
    | [] => .error .typeError
    | t :: rest =>
      if t = .eof then .ok ([], t :: rest)
      else do
        let (s, r1) ← parseStatement fuel (t :: rest)
        let (ss, r2) ← parseProgramAux fuel r1
        .ok (s :: ss, r2)

end

/-- `parseProgram` (line 84): the program body.  The fuel bound
`2 * length + 4` dominates the recursion depth, since every two levels of
descent consume at least one token. -/
def parseProgram (l : List Token) : Except PErr (List Stmt) :=
  match parseProgramAux (2 * l.length + 4) l with
  | .ok (b, _) => .ok b
  | .error e => .error e

/-- The front-end pipeline of `main` (lines 397-400): tokenize then parse,
with both error kinds folded into one message-carrying type the way an
uncaught JS exception surfaces. -/
def parseSource (s : String) : Except String (List Stmt) :=
  match tokenize s with
  | .error (.unexpected pos snippet) =>
    .error ("Unexpected token at " ++ toString pos ++ ": " ++ snippet)
  | .error .fuelOut => .error "fuel"
  | .ok toks =>
    match parseProgram toks with
    | .ok b => .ok b
    | .error (.err m) => .error m
    | .error .typeError => .error "TypeError: cannot read properties of undefined"
    | .error .fuelOut => .error "fuel"

/-- Typed input-slot values of an instruction node, one constructor per
distinct JSON shape the generator writes (lines 240-296):
`[1,[4,v]]` (number shadow), `[2, id-or-null]` (substack link),
`[10, v]` (text), `[1, condition-string]` (raw condition). -/
inductive InputVal where
  | shadowNum (v : Value)
  | substack (id : Option String)
  | text (v : Value)
  | rawCond (s : String)
deriving DecidableEq, Repr

/-- An instruction node (`addBlock`, lines 223-233):
`{opcode, inputs, fields, next, parent}`.  The `fields` mapping is always
empty in this generator but is kept for fidelity. -/
structure Block where
  opcode : String
  inputs : List (String × InputVal)
  fields : List (String × Value)
  next : Option String
  parent : Option String
deriving DecidableEq, Repr

/-- Lowering failures: `msg` is `throw new Error(message)` (only the
`Unhandled stmt type` throw on line 300 is reachable from parser output);
`noFuel` is the embedding's fuel artifact. -/
inductive CErr where
  | msg (s : String)
  | noFuel
deriving DecidableEq, Repr

/-- The mutable state `generateProject` owns: the `blocks` object (an
insertion-ordered string-keyed map), the number of id draws made so far
(indexing into the ambient id stream), and the ids handed to nodes, in
creation order (for stating uniqueness). -/
structure GenSt where
  blocks : List (String × Block)
  ctr : Nat
  created : List String
deriving DecidableEq, Repr

/-- JS object assignment `blocks[id] = v`: replace the binding if the key
exists, otherwise append it. -/
def insertBlock : List (String × Block) → String → Block → List (String × Block)
  | [], id, b => [(id, b)]
  | (k, v) :: rest, id, b =>
    if k = id then (k, b) :: rest else (k, v) :: insertBlock rest id b

/-- JS property read `blocks[id]`. -/
def lookupBlock : List (String × Block) → String → Option Block
  | [], _ => none
  | (k, v) :: rest, id => if k = id then some v else lookupBlock rest id

/-- In-place mutation of one field of an existing entry
(`blocks[id].next = ...` / `blocks[id].parent = ...`). -/
def updateBlock (m : List (String × Block)) (id : String) (f : Block → Block) :
    List (String × Block) :=
  m.map (fun kv => if kv.1 = id then (kv.1, f kv.2) else kv)

/-- `blocks[p].next = v` on the state. -/
def setNext (st : GenSt) (p : String) (v : Option String) : GenSt :=
  ⟨updateBlock st.blocks p (fun b => ⟨b.opcode, b.inputs, b.fields, v, b.parent⟩),
   st.ctr, st.created⟩

/-- `blocks[p].parent = v` on the state. -/
def setParent (st : GenSt) (p : String) (v : Option String) : GenSt :=
  ⟨updateBlock st.blocks p (fun b => ⟨b.opcode, b.inputs, b.fields, b.next, v⟩),
   st.ctr, st.created⟩

/-- `addBlock` (lines 223-233): draw a fresh id from the stream, store the
node, return the id. -/
def addBlock (σ : Nat → String) (st : GenSt) (opcode : String)
    (inputs : List (String × InputVal)) (fields : List (String × Value))
    (next parent : Option String) : String × GenSt :=
  let id := σ st.ctr
  (id, ⟨insertBlock st.blocks id ⟨opcode, inputs, fields, next, parent⟩,
        st.ctr + 1, st.created ++ [id]⟩)

/-- The discarded `const repId = uuidv4()...` draw on line 266: `Repeat`
lowering burns one id from the stream without creating a node. -/
def burnId (st : GenSt) : GenSt := ⟨st.blocks, st.ctr + 1, st.created⟩

/-- JS truthiness of an argument value: `0` and the empty string are falsy. -/
def Value.truthy : Value → Bool
  | .num q => q ≠ 0
  | .str s => s ≠ ""

/-- The `x || d` default idiom on an optionally-present argument
(`stmt.args[i] || d`): the default applies when the argument is absent OR
present but falsy. -/
def jsOr (o : Option Value) (d : Value) : Value :=
  match o with
  | none => d
  | some v => if v.truthy then v else d

/-- The chain record `compileStatements` returns (line 315):
`{first, last, blocksOrder}`. -/
structure Chain where
  first : Option String
  last : Option String
  blocksOrder : List String
deriving DecidableEq, Repr

/-- `if (bodyFirst.blocksOrder.length) blocks[bodyFirst.first].parent = id`
(lines 271-272, 285, 291): backfill the body root's parent.  When the order
list is nonempty `first` is always `some`; the `none` arm mirrors the fact
that JS would only dereference `blocks[null]` in that unreachable case. -/
def backfillParent (st : GenSt) (first : Option String) (order : List String)
    (p : String) : GenSt :=
  if order.length ≠ 0 then
    match first with
    | some f => setParent st f (some p)
    | none => st
  else st

mutual

/-- `compileStatement` (lines 235-301).  The JS function is a sequence of
early-return `if`s; a branch that matches nothing falls through.  The two
observable fall-throughs are: `Event{kind:key}` reaches the final
`throw new Error('Unhandled stmt type Event')`, and a `turn` whose first
argument is not `right`/`lef`/`left` (like any unrecognized call name, and
like a call literally named `repeat`) reaches the
`procedures_call` fallback on line 262.  Returns the created node's id
(`none` for `Empty`). -/
def compileStatement (σ : Nat → String) :
    Nat → Stmt → GenSt → Except CErr (Option String × GenSt)
  | 0, _, _ => .error .noFuel
  | fuel + 1, stmt, st =>
    match stmt with
    | .Call name args forN =>
      if name = "move" then
        let steps := jsOr (args.get? 0) (.num 10)
        let (id, st1) := addBlock σ st "motion_movesteps"
          [("STEPS", .shadowNum steps)] [] none none
        .ok (some id, st1)
      else if name = "turn" && args.get? 0 = some (.str "right") then
        let amount := jsOr (args.get? 1) (.num 15)
        let (id, st1) := addBlock σ st "motion_turnright"
          [("DEGREES", .shadowNum amount)] [] none none
        .ok (some id, st1)
      else if name = "turn" &&
          (args.get? 0 = some (.str "lef") || args.get? 0 = some (.str "left")) then
        let amount := jsOr (args.get? 1) (.num 15)
        let (id, st1) := addBlock σ st "motion_turnleft"
          [("DEGREES", .shadowNum amount)] [] none none
        .ok (some id, st1)
      else if name = "say" then
        let txt := jsOr (args.get? 0) (.str "")
        match forN with
        | some f =>
          if f ≠ 0 then
            let (id, st1) := addBlock σ st "looks_sayforsecs"
              [("MESSAGE", .text txt), ("SECS", .shadowNum (.num f))] [] none none
            .ok (some id, st1)
          else
            let (id, st1) := addBlock σ st "looks_say"
              [("MESSAGE", .text txt)] [] none none
            .ok (some id, st1)
        | none =>
          let (id, st1) := addBlock σ st "looks_say"
            [("MESSAGE", .text txt)] [] none none
          .ok (some id, st1)
      else if name = "wait" then
        let t := jsOr (args.get? 0) (.num 1)
        let (id, st1) := addBlock σ st "control_wait"
          [("DURATION", .shadowNum t)] [] none none
        .ok (some id, st1)
      else
        let (id, st1) := addBlock σ st "procedures_call" [] [] none none
        .ok (some id, st1)
    | .Repeat count body =>
      let st1 := burnId st
      match compileStatementsAux σ fuel body st1 none none [] with
      | .error e => .error e
      | .ok (ch, st2) =>
        let (repBlockId, st3) := addBlock σ st2 "control_repeat"
          [("TIMES", .shadowNum (.num count)), ("SUBSTACK", .substack ch.first)]
          [] none none
        .ok (some repBlockId, backfillParent st3 ch.first ch.blocksOrder repBlockId)
    | .Event kind =>
      match kind with
      | .start =>
        let (id, st1) := addBlock σ st "event_whenflagclicked" [] [] none none
        .ok (some id, st1)
      | .click =>
        let (id, st1) := addBlock σ st "event_whenthisspriteclicked" [] [] none none
        .ok (some id, st1)
      | .backdrop name =>
        let (id, st1) := addBlock σ st "event_whenbackdropswitchesto"
          [("BACKDROP", .text (.str name))] [] none none
        .ok (some id, st1)
      | .key _ => .error (.msg "Unhandled stmt type Event")
    | .LoopStatement body =>
      match compileStatementsAux σ fuel body st none none [] with
      | .error e => .error e
      | .ok (ch, st1) =>
        let (loopId, st2) := addBlock σ st1 "control_forever"
          [("SUBSTACK", .substack ch.first)] [] none none
        .ok (some loopId, backfillParent st2 ch.first ch.blocksOrder loopId)
    | .If condition consequent _alternate =>
      match compileStatementsAux σ fuel consequent st none none [] with
      | .error e => .error e
      | .ok (ch, st1) =>
        let (ifId, st2) := addBlock σ st1 "control_if"
          [("CONDITION", .rawCond condition), ("SUBSTACK", .substack ch.first)]
          [] none none
        .ok (some ifId, backfillParent st2 ch.first ch.blocksOrder ifId)
    | .AwaitUntil condition =>
      let (id, st1) := addBlock σ st "control_wait_until"
        [("CONDITION", .rawCond condition)] [] none none
      .ok (some id, st1)
    | .Empty => .ok (none, st)

/-- The loop of `compileStatements` (lines 303-316), with the loop state
(`firstId`, `prevId`, `order`) as accumulator arguments: statements yielding
no id are skipped; otherwise the previous node's `next` is pointed at the
new id and the order list grows. -/
def compileStatementsAux (σ : Nat → String) :
    Nat → List Stmt → GenSt → Option String → Option String → List String →
    Except CErr (Chain × GenSt)
  | 0, _, _, _, _, _ => .error .noFuel
  | _fuel + 1, [], st, first, prev, order => .ok (⟨first, prev, order⟩, st)
  | fuel + 1, s :: rest, st, first, prev, order =>
    match compileStatement σ fuel s st with
    | .error e => .error e
    | .ok (idOpt, st1) =>
      match idOpt with
      | none => compileStatementsAux σ fuel rest st1 first prev order
      | some id =>
        let st2 :=
          match prev with
          | some p => setNext st1 p (some id)
          | none => st1
        let first1 :=
          match first with
          | none => some id
          | some f => some f
        compileStatementsAux σ fuel rest st2 first1 (some id) (order ++ [id])

end

/-- `compileStatements` (line 303): the loop started with empty state. -/
def compileStatements (σ : Nat → String) (fuel : Nat) (stmts : List Stmt)
    (st : GenSt) : Except CErr (Chain × GenSt) :=
  compileStatementsAux σ fuel stmts st none none []

/-- `node.type === 'Event'` (line 322). -/
def isEvent : Stmt → Bool
  | .Event _ => true
  | _ => false

/-- The top-level loop of `generateProject` (lines 320-338): each `Event`
statement is compiled in isolation and its hat id pushed onto `scripts`;
the first non-event statement creates a synthetic `start` hat, compiles the
ENTIRE top-level body (`ast.body`, passed here as `full`) as one chain
hanging off it, and `break`s out of the loop. -/
def generateProjectAux (σ : Nat → String) :
    Nat → List Stmt → List Stmt → GenSt → List (Option String) →
    Except CErr (GenSt × List (Option String))
  | 0, _, _, _, _ => .error .noFuel
  | _fuel + 1, _full, [], st, scripts => .ok (st, scripts)
  | fuel + 1, full, node :: rest, st, scripts =>
    if isEvent node then
      match compileStatement σ fuel node st with
      | .error e => .error e
      | .ok (hatId, st1) =>
        generateProjectAux σ fuel full rest st1 (scripts ++ [hatId])
    else
      let (startHat, st1) := addBlock σ st "event_whenflagclicked" [] [] none none
      match compileStatements σ fuel full st1 with
      | .error e => .error e
      | .ok (compiled, st2) =>
        let st3 :=
          match compiled.first with
          | some f => setNext st2 startHat (some f)
          | none => st2
        .ok (st3, scripts)

/-- The empty compilation state (fresh `blocks = {}`, line 220). -/
def initSt : GenSt := ⟨[], 0, []⟩

/-- `generateProject` (line 219) restricted to its algorithmic core: the
instruction graph and the script roots (the surrounding project-JSON
scaffolding is static data). -/
def generateProject (σ : Nat → String) (fuel : Nat) (body : List Stmt) :
    Except CErr (GenSt × List (Option String)) :=
  generateProjectAux σ fuel body body initSt []

/-- A concrete id stream for evaluating runs: decimal numerals. -/
def numStream : Nat → String := fun n => toString n

/-- The event-prefix scan of the top-level loop, written as its own
recursion: one isolated hat per leading `Event` statement, each pushed onto
`scripts`, with the same fuel discipline as `generateProjectAux`.  Used to
state how far the top-level loop gets before its synthetic-hat branch
fires. -/
def lowerHats (σ : Nat → String) :
    Nat → List Stmt → GenSt → List (Option String) →
    Except CErr (GenSt × List (Option String))
  | 0, _, _, _ => .error .noFuel
  | _fuel + 1, [], st, scripts => .ok (st, scripts)
  | fuel + 1, e :: rest, st, scripts =>
    match compileStatement σ fuel e st with
    | .error err => .error err
    | .ok (h, st1) => lowerHats σ fuel rest st1 (scripts ++ [h])

/-- Invariant for id generation: the ids handed out so far are pairwise
distinct, and each is a draw `σ i` with index below the current draw
counter. -/
def IdsOk (σ : Nat → String) (st : GenSt) : Prop :=
  st.created.Nodup ∧ ∀ id ∈ st.created, ∃ i, i < st.ctr ∧ σ i = id

/-- An injective id stream used by witnesses: `n` letters `a`. -/
def repStream : Nat → String := fun n => String.mk (List.replicate n 'a')

/-!
## Theorems settling the claims
-/

/-- Claim C1: the spec says that for the source text
`on start; repeat(5) { move(10); turn right(15); }` parsing succeeds with
`Event{start}` followed by `Repeat{count:5, body:[move(10), turn right(15)]}`.
The code disagrees: the lexer splits `turn right(15)` into the identifier
`turn` followed by the identifier `right`, and `parseSimple` — having seen no
`(` directly after `turn` — demands a semicolon and throws
`Expected semicolon after statement turn`.  This is the exact usage example
in the source file's own header comment (lines 26-30), so the code
contradicts its own documentation. -/
theorem C1_turn_right_fails_to_parse :
    parseSource "on start; repeat(5) \x7b move(10); turn right(15); \x7d" =
      .error "Expected semicolon after statement turn" := rfl

/-- Claim C9: in a generic call's argument list comma separators are
optional and a trailing comma is accepted: `foo(1 2);`, `foo(1,2,);` and
`foo(1,2);` all parse to the same `Call{name:"foo", args:[1, 2]}`. -/
theorem C9_commas_optional_and_trailing :
    parseSource "foo(1 2);" = .ok [.Call "foo" [.num 1, .num 2] none] ∧
    parseSource "foo(1,2,);" = .ok [.Call "foo" [.num 1, .num 2] none] ∧
    parseSource "foo(1,2);" = .ok [.Call "foo" [.num 1, .num 2] none] :=
  ⟨rfl, rfl, rfl⟩

/-- Claim C5 counterexample: lowering `Call{move,[0]}` — a present argument
`0` — emits STEPS = 10 (the default), not STEPS = 0 as the claim states,
because the JS default idiom `stmt.args[0] || 10` treats the number `0` as
falsy. -/
theorem C5_move_zero_gets_default :
    compileStatement numStream 2 (.Call "move" [.num 0] none) initSt =
      .ok (some "0",
        ⟨[("0", ⟨"motion_movesteps", [("STEPS", .shadowNum (.num 10))], [],
                 none, none⟩)], 1, ["0"]⟩) ∧
    Value.num 10 ≠ Value.num 0 :=
  ⟨rfl, by decide⟩

/-- Claim C5 amended: for a Call named `move` with a non-empty argument
list, the STEPS input is the first argument when that argument is truthy
(a nonzero number or nonempty string); a falsy first argument (`0` or the
empty string) falls back to the default 10 exactly as an absent argument
does. -/
theorem C5_move_steps_follows_truthiness (σ : Nat → String) (fuel : Nat)
    (st : GenSt) (v : Value) (rest : List Value) (forN : Option ℚ) :
    compileStatement σ (fuel + 1) (.Call "move" (v :: rest) forN) st =
      .ok (some (σ st.ctr),
        ⟨insertBlock st.blocks (σ st.ctr)
           ⟨"motion_movesteps",
            [("STEPS", .shadowNum (if v.truthy then v else .num 10))],
            [], none, none⟩,
         st.ctr + 1, st.created ++ [σ st.ctr]⟩) := by
  simp [compileStatement, addBlock, jsOr]

/-- Claim C3 counterexample: a program tree containing `Event{kind:key}`
does not lower with the statement silently skipped — lowering fails with
`Unhandled stmt type Event` (in `compileStatement`, the `Event` branch has
no case for `key`, so control falls through to the final throw on line
300). -/
theorem C3_event_key_aborts_lowering :
    generateProject numStream 20
      [.Event .start, .Event (.key "space"), .Call "move" [.num 10] none] =
      .error (.msg "Unhandled stmt type Event") := rfl

/-- Claim C3 amended: lowering any statement `Event{kind:key}` (in any
state, with any id stream) throws `Unhandled stmt type Event`; the
statement is not skipped and the surrounding chain is never built. -/
theorem C3_event_key_always_throws (σ : Nat → String) (fuel : Nat)
    (st : GenSt) (k : String) :
    compileStatement σ (fuel + 1) (.Event (.key k)) st =
      .error (.msg "Unhandled stmt type Event") := rfl

/-- Claim C4 counterexample: in the list `move(10); turn up(15); move(3)`
the unknown-direction `turn` does NOT vanish from the chain — it lowers to
a `procedures_call` node that sits between the two `motion_movesteps`
nodes (`"0".next = "1"`, `"1".next = "2"`), whereas the claim says the
chain links the two moves directly. -/
theorem C4_turn_up_in_chain :
    compileStatements numStream 20
      [.Call "move" [.num 10] none, .Call "turn" [.str "up", .num 15] none,
       .Call "move" [.num 3] none] initSt =
      .ok (⟨some "0", some "2", ["0", "1", "2"]⟩,
        ⟨[("0", ⟨"motion_movesteps", [("STEPS", .shadowNum (.num 10))], [],
                 some "1", none⟩),
          ("1", ⟨"procedures_call", [], [], some "2", none⟩),
          ("2", ⟨"motion_movesteps", [("STEPS", .shadowNum (.num 3))], [],
                 none, none⟩)],
         3, ["0", "1", "2"]⟩) := rfl

/-- Claim C4 amended: a Call named `turn` whose first argument is none of
`"right"`, `"lef"`, `"left"` lowers to the unhandled-call fallback — a
`procedures_call` node with empty inputs whose id is returned, so the node
participates in the sequencing chain like any other. -/
theorem C4_turn_unknown_dir_is_procedures_call (σ : Nat → String)
    (fuel : Nat) (st : GenSt) (d : Value) (rest : List Value)
    (forN : Option ℚ) (h1 : d ≠ .str "right") (h2 : d ≠ .str "lef")
    (h3 : d ≠ .str "left") :
    compileStatement σ (fuel + 1) (.Call "turn" (d :: rest) forN) st =
      .ok (some (σ st.ctr),
        ⟨insertBlock st.blocks (σ st.ctr)
           ⟨"procedures_call", [], [], none, none⟩,
         st.ctr + 1, st.created ++ [σ st.ctr]⟩) := by
  simp [compileStatement, addBlock, h1, h2, h3]

/-- Witness for `C4_turn_unknown_dir_is_procedures_call` at
`turn up(15)` in the empty state with the numeral stream. -/
theorem C4_turn_unknown_dir_witness :
    Value.str "up" ≠ Value.str "right" ∧ Value.str "up" ≠ Value.str "lef" ∧
    Value.str "up" ≠ Value.str "left" ∧
    compileStatement numStream 1 (.Call "turn" [.str "up", .num 15] none) initSt =
      .ok (some (numStream 0),
        ⟨insertBlock initSt.blocks (numStream 0)
           ⟨"procedures_call", [], [], none, none⟩,
         initSt.ctr + 1, initSt.created ++ [numStream 0]⟩) :=
  ⟨by decide, by decide, by decide,
   C4_turn_unknown_dir_is_procedures_call numStream 0 initSt (.str "up")
     [.num 15] none (by decide) (by decide) (by decide)⟩

/-- Claim C2 counterexample: for the body `[Event{start}, move(10)]` — whose
very FIRST statement is an `Event` — lowering still creates a synthetic
`start` hat: the top-level loop reaches the non-event `move` at index 1,
adds a second `event_whenflagclicked` ("1"), re-lowers the ENTIRE body
beneath it (producing a third, chained flag hat "2" for the same event),
and stops.  The claim's condition for the synthetic hat ("only when the
very first top-level statement is non-event", or §4.3's "only when the body
contains no Event at all") is therefore false. -/
theorem C2_synthetic_hat_despite_leading_event :
    generateProject numStream 20 [.Event .start, .Call "move" [.num 10] none] =
      .ok (⟨[("0", ⟨"event_whenflagclicked", [], [], none, none⟩),
             ("1", ⟨"event_whenflagclicked", [], [], some "2", none⟩),
             ("2", ⟨"event_whenflagclicked", [], [], some "3", none⟩),
             ("3", ⟨"motion_movesteps", [("STEPS", .shadowNum (.num 10))], [],
                    none, none⟩)],
            4, ["0", "1", "2", "3"]⟩,
           [some "0"]) := rfl

/-- Claim C6 counterexample: an `if` whose condition parenthesis is never
closed before end-of-input does NOT fail with a structured parse error: the
condition scan consumes the `eof` sentinel and then reads `.type` of
`undefined`, a TypeError carrying no expected construct, no actual token
and no position. -/
theorem C6_unclosed_condition_is_typeerror :
    tokenize "if (x" = .ok [.ident "if", .punct "(", .ident "x", .eof] ∧
    parseProgram [.ident "if", .punct "(", .ident "x", .eof] =
      .error .typeError :=
  ⟨rfl, rfl⟩

/-- Claim C8 counterexample: nothing in `addBlock` prevents two draws of the
truncated-uuid stream from being equal; if the stream repeats (here the
constant stream), the same id is handed to several nodes — `created` is
`["x","x","x"]` — and the colliding assignment silently overwrites the
earlier block, leaving one block whose `next` points at its own id. -/
theorem C8_colliding_stream_reuses_ids :
    ∃ st sc,
      generateProject (fun _ => "x") 20
        [.Call "move" [.num 10] none, .Call "say" [.str "a"] none] =
        .ok (st, sc) ∧
      ¬ st.created.Nodup :=
  ⟨_, _, rfl, by decide⟩

/-- Claim C7: lowering `Repeat{count:5, body:[move(10), turn right(15)]}`
(as a tree, from the empty state) yields a `control_repeat` node (the 4th
draw, `σ 3`; the 1st draw `σ 0` is the discarded `repId` of line 266) whose
SUBSTACK is the id of a `motion_movesteps` node with STEPS=10 whose `next`
is the id of a `motion_turnright` node with DEGREES=15; the movesteps
node's `parent` is the repeat node's id and the repeat node's `parent` is
none.  The draw order (`σ 1`, `σ 2` before `σ 3`) shows the body is lowered
before the container node is created; the second conjunct shows that for an
empty body the SUBSTACK is none and no parent is backfilled. -/
theorem C7_repeat_lowering (σ : Nat → String) (fuel : Nat)
    (h12 : σ 1 ≠ σ 2) (h13 : σ 1 ≠ σ 3) (h23 : σ 2 ≠ σ 3) :
    compileStatement σ (fuel + 4)
      (.Repeat 5 [.Call "move" [.num 10] none,
                  .Call "turn" [.str "right", .num 15] none]) initSt =
      .ok (some (σ 3),
        ⟨[(σ 1, ⟨"motion_movesteps", [("STEPS", .shadowNum (.num 10))], [],
                 some (σ 2), some (σ 3)⟩),
          (σ 2, ⟨"motion_turnright", [("DEGREES", .shadowNum (.num 15))], [],
                 none, none⟩),
          (σ 3, ⟨"control_repeat",
                 [("TIMES", .shadowNum (.num 5)),
                  ("SUBSTACK", .substack (some (σ 1)))], [], none, none⟩)],
         4, [σ 1, σ 2, σ 3]⟩) ∧
    compileStatement σ (fuel + 4) (.Repeat 3 []) initSt =
      .ok (some (σ 1),
        ⟨[(σ 1, ⟨"control_repeat",
                 [("TIMES", .shadowNum (.num 3)), ("SUBSTACK", .substack none)],
                 [], none, none⟩)],
         2, [σ 1]⟩) := by
  constructor
  · simp [compileStatement, compileStatementsAux, addBlock, burnId,
          backfillParent, setNext, setParent, insertBlock, updateBlock,
          jsOr, initSt, h12, h13, h23, Ne.symm h12, Ne.symm h13, Ne.symm h23]
  · simp [compileStatement, compileStatementsAux, addBlock, burnId,
          backfillParent, insertBlock, initSt]

/-- Witness for `C7_repeat_lowering` at the numeral stream. -/
theorem C7_repeat_lowering_witness :
    numStream 1 ≠ numStream 2 ∧ numStream 1 ≠ numStream 3 ∧
    numStream 2 ≠ numStream 3 ∧
    (compileStatement numStream 4
      (.Repeat 5 [.Call "move" [.num 10] none,
                  .Call "turn" [.str "right", .num 15] none]) initSt =
      .ok (some (numStream 3),
        ⟨[(numStream 1, ⟨"motion_movesteps",
                 [("STEPS", .shadowNum (.num 10))], [],
                 some (numStream 2), some (numStream 3)⟩),
          (numStream 2, ⟨"motion_turnright",
                 [("DEGREES", .shadowNum (.num 15))], [], none, none⟩),
          (numStream 3, ⟨"control_repeat",
                 [("TIMES", .shadowNum (.num 5)),
                  ("SUBSTACK", .substack (some (numStream 1)))], [],
                 none, none⟩)],
         4, [numStream 1, numStream 2, numStream 3]⟩) ∧
    compileStatement numStream 4 (.Repeat 3 []) initSt =
      .ok (some (numStream 1),
        ⟨[(numStream 1, ⟨"control_repeat",
                 [("TIMES", .shadowNum (.num 3)), ("SUBSTACK", .substack none)],
                 [], none, none⟩)],
         2, [numStream 1]⟩)) :=
  ⟨by decide, by decide, by decide,
   C7_repeat_lowering numStream 0 (by decide) (by decide) (by decide)⟩

/-- Claim C10: whenever the scanner stands at a token-start position whose
character is a double quote and no further double quote occurs anywhere in
the remaining input, no regex alternative matches (the string alternative
requires a closing quote; a quote starts no punctuation, identifier or
number), the quote is not skippable whitespace, and `tokenize` fails with
the `Unexpected token` error reporting exactly that position together with
the 20-character snippet starting there. -/
theorem C10_unterminated_string_fails (fuel : Nat) (rest : List Char)
    (pos : Nat) (acc : List Token) (h : '"' ∉ rest) :
    tokenizeAux (fuel + 1) ('"' :: rest) pos acc =
      .error (.unexpected pos (String.mk (('"' :: rest).take 20))) := by
  simp [tokenizeAux, matchToken, skipWs, matchPunct, matchPunctAux,
        punctList, stripLead, matchIdent, matchStr, matchNum,
        isIdentStart, isSkipWs, isJsWs, h]

/-- Witness for `C10_unterminated_string_fails` on the tail `abc` at
offset 7. -/
theorem C10_unterminated_string_witness :
    '"' ∉ ['a', 'b', 'c'] ∧
    tokenizeAux 5 ('"' :: ['a', 'b', 'c']) 7 [] =
      .error (.unexpected 7 (String.mk (('"' :: ['a', 'b', 'c']).take 20))) :=
  ⟨by decide, C10_unterminated_string_fails 4 ['a', 'b', 'c'] 7 [] (by decide)⟩

/-- Helper: the condition scan on a `)`-free token list followed by the
`eof` sentinel consumes everything, then reads past the array end. -/
theorem collectCond_no_rparen (c : List Token)
    (h : ∀ t ∈ c, t ≠ .punct ")") :
    collectCond (c ++ [.eof]) = .error .typeError := by
  induction c with
  | nil => simp [collectCond]
  | cons t c ih =>
    have ht := h t (by simp)
    have h' : ∀ x ∈ c, x ≠ Token.punct ")" := fun x hx => h x (by simp [hx])
    simp [collectCond, ht, ih h']

/-- Helper: running the parser on `if (` followed by a `)`-free token tail
ending in `eof` raises the out-of-range `TypeError`, for any fuel at least
3. -/
theorem parseProgramAux_if_typeError (F : Nat) (c : List Token)
    (h : ∀ t ∈ c, t ≠ .punct ")") :
    parseProgramAux (F + 3) (.ident "if" :: .punct "(" :: (c ++ [.eof])) =
      .error .typeError := by
  simp [parseProgramAux, parseStatement, parseIf, expectI, expectP,
        Bind.bind, Except.bind, collectCond_no_rparen c h]

/-- Claim C6 amended: parse failures raised at `expect` points are Errors
naming the expected construct and the actual token, but not every failure
is such a structured error: whenever an `if` condition's parenthesis is
never closed before end-of-input (any `)`-free condition tail), the
condition scan consumes the `eof` sentinel and the parser then reads a
property of `undefined` — a bare TypeError with no expected construct,
token or position.  (No parse error carries a source position at all:
tokens do not record offsets.) -/
theorem C6_unclosed_if_condition_typeerror (c : List Token)
    (h : ∀ t ∈ c, t ≠ .punct ")") :
    parseProgram ([.ident "if", .punct "("] ++ c ++ [.eof]) =
      .error .typeError := by
  have key := parseProgramAux_if_typeError (2 * c.length + 7) c h
  have hlen : ([Token.ident "if", Token.punct "("] ++ c ++ [Token.eof]).length
      = c.length + 3 := by simp
  unfold parseProgram
  rw [hlen]
  have harith : 2 * (c.length + 3) + 4 = (2 * c.length + 7) + 3 := by ring
  rw [harith]
  have hlist : ([Token.ident "if", Token.punct "("] ++ c ++ [Token.eof])
      = Token.ident "if" :: Token.punct "(" :: (c ++ [Token.eof]) := by simp
  rw [hlist, key]

/-- Witness for `C6_unclosed_if_condition_typeerror` on the condition tail
`y 3`. -/
theorem C6_unclosed_if_condition_witness :
    (∀ t ∈ [Token.ident "y", Token.num 3], t ≠ Token.punct ")") ∧
    parseProgram ([.ident "if", .punct "("] ++
        [Token.ident "y", Token.num 3] ++ [.eof]) = .error .typeError :=
  ⟨by decide, C6_unclosed_if_condition_typeerror [Token.ident "y", Token.num 3]
    (by decide)⟩

/-- Claim C2 amended: the top-level loop creates one isolated hat per
leading top-level `Event` statement, but the synthetic `start` hat is
created whenever the scan meets the FIRST non-event top-level statement —
at any position, i.e. exactly when some top-level statement is non-event,
not only when the very first one is (and not only when no `Event` occurs at
all).  At that point the hat absorbs the ENTIRE top-level list `full`
(re-lowering any leading events as duplicate, now chained, hats) as one
sequential script attached beneath it, and processing stops, so at most one
synthetic attachment is produced. -/
theorem C2_synthetic_hat_at_first_nonevent (σ : Nat → String)
    (evs : List Stmt) (s : Stmt) (rest full : List Stmt)
    (hevs : ∀ e ∈ evs, isEvent e = true) (hs : isEvent s = false) :
    ∀ (F : Nat) (st : GenSt) (scripts : List (Option String)),
      evs.length < F →
      generateProjectAux σ F full (evs ++ s :: rest) st scripts =
        match lowerHats σ F evs st scripts with
        | .error e => .error e
        | .ok (st1, sc1) =>
          match compileStatements σ (F - evs.length - 1) full
              (addBlock σ st1 "event_whenflagclicked" [] [] none none).2 with
          | .error e => .error e
          | .ok (compiled, st3) =>
            .ok ((match compiled.first with
                  | some f =>
                    setNext st3
                      (addBlock σ st1 "event_whenflagclicked" [] [] none none).1
                      (some f)
                  | none => st3), sc1) := by
  induction evs with
  | nil =>
    intro F st scripts hF
    match F, hF with
    | F' + 1, _ =>
      simp [generateProjectAux, lowerHats, hs]
  | cons e evs ih =>
    intro F st scripts hF
    match F, hF with
    | F' + 1, hF =>
      have he : isEvent e = true := hevs e (by simp)
      have hevs' : ∀ x ∈ evs, isEvent x = true := fun x hx => hevs x (by simp [hx])
      have hF' : evs.length < F' := by
        have := hF
        simp only [List.length_cons] at this
        omega
      simp only [List.cons_append, generateProjectAux, lowerHats, he, if_true]
      cases hcs : compileStatement σ F' e st with
      | error err => simp
      | ok v =>
        obtain ⟨h1, st1⟩ := v
        simpa [Nat.succ_sub_succ] using ih hevs' F' st1 (scripts ++ [h1]) hF'

/-- Witness for `C2_synthetic_hat_at_first_nonevent`: one leading event,
then `move(10)`, with the numeral stream, fuel 20. -/
theorem C2_synthetic_hat_witness :
    (∀ e ∈ [Stmt.Event .start], isEvent e = true) ∧
    isEvent (.Call "move" [.num 10] none) = false ∧
    ([Stmt.Event .start].length < 20) ∧
    generateProjectAux numStream 20
        [.Event .start, .Call "move" [.num 10] none]
        ([Stmt.Event .start] ++ (.Call "move" [.num 10] none) :: [])
        initSt [] =
      match lowerHats numStream 20 [Stmt.Event .start] initSt [] with
      | .error e => .error e
      | .ok (st1, sc1) =>
        match compileStatements numStream (20 - [Stmt.Event .start].length - 1)
            [.Event .start, .Call "move" [.num 10] none]
            (addBlock numStream st1 "event_whenflagclicked" [] [] none none).2 with
        | .error e => .error e
        | .ok (compiled, st3) =>
          .ok ((match compiled.first with
                | some f =>
                  setNext st3
                    (addBlock numStream st1 "event_whenflagclicked" [] [] none none).1
                    (some f)
                | none => st3), sc1) :=
  ⟨by decide, by decide, by decide,
   C2_synthetic_hat_at_first_nonevent numStream [Stmt.Event .start]
     (.Call "move" [.num 10] none) [] [.Event .start, .Call "move" [.num 10] none]
     (by decide) (by decide) 20 initSt [] (by decide)⟩

/-- Helper: drawing a fresh id from an injective stream preserves the id
invariant, whatever happens to the block map. -/
theorem idsOkPush (σ : Nat → String) (hinj : ∀ i j : Nat, σ i = σ j → i = j)
    (st : GenSt) (h : IdsOk σ st) (m : List (String × Block)) :
    IdsOk σ ⟨m, st.ctr + 1, st.created ++ [σ st.ctr]⟩ := by
  obtain ⟨hnd, hmem⟩ := h
  constructor
  · rw [List.nodup_append]
    refine ⟨hnd, List.nodup_singleton _, ?_⟩
    intro a ha hb
    rcases hmem a ha with ⟨i, hi, hσ⟩
    have hae : a = σ st.ctr := by simpa using hb
    have : i = st.ctr := hinj i st.ctr (hσ.trans hae)
    omega
  · intro id hid
    rcases List.mem_append.mp hid with hold | hnew
    · rcases hmem id hold with ⟨i, hi, hσ⟩
      exact ⟨i, Nat.lt_succ_of_lt hi, hσ⟩
    · have hne : id = σ st.ctr := by simpa using hnew
      exact ⟨st.ctr, Nat.lt_succ_self _, hne.symm⟩

/-- Helper: burning a draw (the discarded repId) preserves the invariant. -/
theorem idsOkBump (σ : Nat → String) (st : GenSt) (h : IdsOk σ st)
    (m : List (String × Block)) : IdsOk σ ⟨m, st.ctr + 1, st.created⟩ := by
  obtain ⟨hnd, hmem⟩ := h
  refine ⟨hnd, fun id hid => ?_⟩
  rcases hmem id hid with ⟨i, hi, hσ⟩
  exact ⟨i, Nat.lt_succ_of_lt hi, hσ⟩

/-- Helper: mutating blocks only (next/parent writes) preserves the
invariant. -/
theorem idsOkKeep (σ : Nat → String) (st : GenSt) (h : IdsOk σ st)
    (m : List (String × Block)) : IdsOk σ ⟨m, st.ctr, st.created⟩ := h

/-- Helper: `setNext` preserves the invariant. -/
theorem idsOkSetNext (σ : Nat → String) (st : GenSt) (h : IdsOk σ st)
    (p : String) (v : Option String) : IdsOk σ (setNext st p v) := h

/-- Helper: the parent backfill preserves the invariant. -/
theorem idsOkBackfill (σ : Nat → String) (st : GenSt) (h : IdsOk σ st)
    (first : Option String) (order : List String) (p : String) :
    IdsOk σ (backfillParent st first order p) := by
  unfold backfillParent
  split
  · split
    · exact h
    · exact h
  · exact h

/-- The id-uniqueness invariant is preserved by every lowering function:
proved for all three mutually recursive functions at once by induction on
fuel. -/
theorem genInv (σ : Nat → String) (hinj : ∀ i j : Nat, σ i = σ j → i = j) :
    ∀ fuel : Nat,
      (∀ s st r st', IdsOk σ st →
        compileStatement σ fuel s st = .ok (r, st') → IdsOk σ st') ∧
      (∀ l st f p o ch st', IdsOk σ st →
        compileStatementsAux σ fuel l st f p o = .ok (ch, st') → IdsOk σ st') ∧
      (∀ full rem st sc st' sc', IdsOk σ st →
        generateProjectAux σ fuel full rem st sc = .ok (st', sc') →
          IdsOk σ st') := by
  intro fuel
  induction fuel with
  | zero =>
    refine ⟨?_, ?_, ?_⟩ <;> (intros; simp [compileStatement,
      compileStatementsAux, generateProjectAux] at *)
  | succ f ih =>
    obtain ⟨ih1, ih2, ih3⟩ := ih
    refine ⟨?_, ?_, ?_⟩
    · intro s st r st' hst h
      cases s with
      | Call name args forN =>
        simp only [compileStatement, addBlock] at h
        split_ifs at h <;>
        · repeat' split at h
          all_goals
            (simp only [Except.ok.injEq, Prod.mk.injEq] at h
             obtain ⟨-, h2⟩ := h
             subst h2
             exact idsOkPush σ hinj st hst _)
      | Repeat count body =>
        simp only [compileStatement] at h
        split at h
        · exact absurd h (by simp)
        · rename_i ch st2 heq
          simp only [addBlock, Except.ok.injEq, Prod.mk.injEq] at h
          obtain ⟨-, h2⟩ := h
          subst h2
          have hb : IdsOk σ (burnId st) := idsOkBump σ st hst _
          have h2 : IdsOk σ st2 := ih2 body (burnId st) none none [] ch st2 hb heq
          exact idsOkBackfill σ _ (idsOkPush σ hinj st2 h2 _) _ _ _
      | Event kind =>
        cases kind with
        | start =>
          simp only [compileStatement, addBlock, Except.ok.injEq,
            Prod.mk.injEq] at h
          obtain ⟨-, h2⟩ := h
          subst h2
          exact idsOkPush σ hinj st hst _
        | click =>
          simp only [compileStatement, addBlock, Except.ok.injEq,
            Prod.mk.injEq] at h
          obtain ⟨-, h2⟩ := h
          subst h2
          exact idsOkPush σ hinj st hst _
        | backdrop name =>
          simp only [compileStatement, addBlock, Except.ok.injEq,
            Prod.mk.injEq] at h
          obtain ⟨-, h2⟩ := h
          subst h2
          exact idsOkPush σ hinj st hst _
        | key k => simp [compileStatement] at h
      | LoopStatement body =>
        simp only [compileStatement] at h
        split at h
        · exact absurd h (by simp)
        · rename_i ch st2 heq
          simp only [addBlock, Except.ok.injEq, Prod.mk.injEq] at h
          obtain ⟨-, h2⟩ := h
          subst h2
          have h2 : IdsOk σ st2 := ih2 body st none none [] ch st2 hst heq
          exact idsOkBackfill σ _ (idsOkPush σ hinj st2 h2 _) _ _ _
      | If condition consequent alternate =>
        simp only [compileStatement] at h
        split at h
        · exact absurd h (by simp)
        · rename_i ch st2 heq
          simp only [addBlock, Except.ok.injEq, Prod.mk.injEq] at h
          obtain ⟨-, h2⟩ := h
          subst h2
          have h2 : IdsOk σ st2 := ih2 consequent st none none [] ch st2 hst heq
          exact idsOkBackfill σ _ (idsOkPush σ hinj st2 h2 _) _ _ _
      | AwaitUntil condition =>
        simp only [compileStatement, addBlock, Except.ok.injEq,
          Prod.mk.injEq] at h
        obtain ⟨-, h2⟩ := h
        subst h2
        exact idsOkPush σ hinj st hst _
      | Empty =>
        simp only [compileStatement, Except.ok.injEq, Prod.mk.injEq] at h
        obtain ⟨-, h2⟩ := h
        subst h2
        exact hst
    · intro l st f p o ch st' hst h
      cases l with
      | nil =>
        simp only [compileStatementsAux, Except.ok.injEq, Prod.mk.injEq] at h
        obtain ⟨-, h2⟩ := h
        subst h2
        exact hst
      | cons s rest =>
        simp only [compileStatementsAux] at h
        split at h
        · exact absurd h (by simp)
        · rename_i idOpt st1 heq
          have h1 : IdsOk σ st1 := ih1 s st idOpt st1 hst heq
          split at h
          · exact ih2 rest st1 f p o ch st' h1 h
          · rename_i id
            cases p with
            | none => exact ih2 rest st1 _ _ _ ch st' h1 h
            | some pv =>
              exact ih2 rest (setNext st1 pv (some id)) _ _ _ ch st'
                (idsOkSetNext σ st1 h1 pv (some id)) h
    · intro full rem st sc st' sc' hst h
      cases rem with
      | nil =>
        simp only [generateProjectAux, Except.ok.injEq, Prod.mk.injEq] at h
        obtain ⟨h2, -⟩ := h
        subst h2
        exact hst
      | cons node rest =>
        simp only [generateProjectAux] at h
        split at h
        · -- event branch
          split at h
          · exact absurd h (by simp)
          · rename_i hatId st1 heq
            exact ih3 full rest st1 (sc ++ [hatId]) st' sc'
              (ih1 node st hatId st1 hst heq) h
        · -- synthetic branch
          simp only [compileStatements, addBlock] at h
          split at h
          · exact absurd h (by simp)
          · rename_i compiled st2 heq
            have hpush : IdsOk σ (⟨insertBlock st.blocks (σ st.ctr)
                ⟨"event_whenflagclicked", [], [], none, none⟩,
                st.ctr + 1, st.created ++ [σ st.ctr]⟩ : GenSt) :=
              idsOkPush σ hinj st hst _
            have h2 : IdsOk σ st2 :=
              ih2 full _ none none [] compiled st2 hpush heq
            split at h
            · rename_i fid
              simp only [Except.ok.injEq, Prod.mk.injEq] at h
              obtain ⟨h3, -⟩ := h
              subst h3
              exact idsOkSetNext σ st2 h2 _ _
            · simp only [Except.ok.injEq, Prod.mk.injEq] at h
              obtain ⟨h3, -⟩ := h
              subst h3
              exact h2

/-- Claim C8 amended: id uniqueness is conditional, not structural — IF the
id draws (the truncated uuid values) made during one compilation are
pairwise distinct, then every instruction node created during that
compilation receives an identifier distinct from every other node's, for
every program tree of any size.  The code itself contains no check, so a
colliding draw (possible with random 80-bit-entropy ids) violates the
claim, as the counterexample shows. -/
theorem C8_unique_ids_with_injective_stream (σ : Nat → String)
    (hinj : ∀ i j : Nat, σ i = σ j → i = j) (fuel : Nat) (body : List Stmt)
    (st : GenSt) (scripts : List (Option String))
    (h : generateProject σ fuel body = .ok (st, scripts)) :
    st.created.Nodup := by
  have hinit : IdsOk σ initSt := by
    constructor
    · exact List.nodup_nil
    · intro id hid
      simp [initSt] at hid
  exact ((genInv σ hinj fuel).2.2 body body initSt [] st scripts hinit h).1

/-- Witness for `C8_unique_ids_with_injective_stream` on a two-statement
program with the injective replicate stream. -/
theorem C8_unique_ids_witness :
    (∀ i j : Nat, repStream i = repStream j → i = j) ∧
    generateProject repStream 20
        [.Call "move" [.num 10] none, .Call "wait" [] none] =
      .ok (⟨[("", ⟨"event_whenflagclicked", [], [], some "a", none⟩),
             ("a", ⟨"motion_movesteps", [("STEPS", .shadowNum (.num 10))], [],
                    some "aa", none⟩),
             ("aa", ⟨"control_wait", [("DURATION", .shadowNum (.num 1))], [],
                     none, none⟩)],
            3, ["", "a", "aa"]⟩, []) ∧
    (GenSt.created ⟨[("", ⟨"event_whenflagclicked", [], [], some "a", none⟩),
             ("a", ⟨"motion_movesteps", [("STEPS", .shadowNum (.num 10))], [],
                    some "aa", none⟩),
             ("aa", ⟨"control_wait", [("DURATION", .shadowNum (.num 1))], [],
                     none, none⟩)],
            3, ["", "a", "aa"]⟩).Nodup := by
  have hinj : ∀ i j : Nat, repStream i = repStream j → i = j := by
    intro i j h
    have h2 := congrArg String.data h
    simpa [repStream] using congrArg List.length h2
  refine ⟨hinj, by decide, ?_⟩
  exact C8_unique_ids_with_injective_stream repStream hinj 20
    [.Call "move" [.num 10] none, .Call "wait" [] none] _ [] (by decide)
